import Mathlib

/-!
Verification of the ETL weather pipeline (extract / transform / load /
quality gate / dashboard) against its natural-language specification.

The Python sources are shallowly embedded:

* a nullable numeric table cell (a pandas float that may be NaN/None)
  is an Option over the rationals;
* the transform step (src/pipeline/transform.py) is a total Lean
  function returning Except, mirroring the KeyError raised when a
  series is absent from the daily mapping and the ValueError raised by
  the DataFrame constructor when the parallel series have unequal
  lengths.  Date strings are left abstract (the source hands them to
  pandas to_datetime; the claims only concern index alignment);
* the raw_weather table is a list of rows; the single
  INSERT ... ON CONFLICT (city, date) DO NOTHING statement is the
  row-by-row fold that PostgreSQL performs, returning the new table
  state together with the rowcount of actually inserted rows;
* the HTTP transport (src/pipeline/extract.py) is a function of the
  sequence of statuses the server would answer on successive attempts,
  with the urllib3 Retry(total := 3, status_forcelist := [429, 500,
  502, 503, 504]) discipline and the raise_for_status call;
* the dashboard refresh callback (src/dashboard/app.py) is a pure
  function from the outcome of the database read to the rendered page
  fragments.
-/

/-- A nullable numeric cell: pandas represents a missing numeric value as
NaN/None; all non-null arithmetic in this pipeline is exact. -/
abbrev Val := Option ℚ

/-- One row of the raw_weather table, the schema built by transform.py. -/
structure RawObservation where
  city : String
  date : String
  temperature_max : Val
  temperature_min : Val
  precipitation : Val
  windspeed_max : Val
deriving Repr, DecidableEq

/-- One row of the daily_summary shape built by transform.py. -/
structure DailySummary where
  city : String
  date : String
  avg_temperature : Val
  total_precipitation : Val
  max_windspeed : Val
deriving Repr, DecidableEq

/-- The daily mapping of the Open-Meteo JSON response: each named series
is present (some list) or absent (none), mirroring dictionary lookup. -/
structure DailySeries where
  time : Option (List String)
  temperature_2m_max : Option (List Val)
  temperature_2m_min : Option (List Val)
  precipitation_sum : Option (List Val)
  windspeed_10m_max : Option (List Val)
deriving Repr, DecidableEq

/-- The top-level JSON response: raw_data.get("daily", {}) in the source. -/
structure RawData where
  daily : Option DailySeries
deriving Repr, DecidableEq

/-- CITY constant of transform.py. -/
def CITY : String := "Singapore"

/-- The empty dictionary that raw_data.get("daily", {}) falls back to:
every subsequent series lookup raises KeyError. -/
def emptyDaily : DailySeries :=
  { time := none, temperature_2m_max := none, temperature_2m_min := none,
    precipitation_sum := none, windspeed_10m_max := none }

/-- The daily mapping actually indexed by transform.py. -/
def seriesOf (raw_data : RawData) : DailySeries :=
  raw_data.daily.getD emptyDaily

/-- Row builder for the DataFrame constructor: one RawObservation per
index, city broadcast as a scalar, every other field taken positionally
from its series.  Stops at the shortest list; transform only calls it
with equally long series. -/
def buildRows : List String → List Val → List Val → List Val → List Val →
    List RawObservation
  | t :: ts, a :: ta, b :: tb, c :: tc, d :: td =>
      { city := CITY, date := t, temperature_max := a, temperature_min := b,
        precipitation := c, windspeed_max := d } :: buildRows ts ta tb tc td
  | _, _, _, _, _ => []

/-- The fillna(0) applied to the precipitation column only. -/
def fillPrecip (r : RawObservation) : RawObservation :=
  { r with precipitation := some (r.precipitation.getD 0) }

/-- Pandas addition on nullable cells: NaN propagates. -/
def valAdd : Val → Val → Val
  | some x, some y => some (x + y)
  | _, _ => none

/-- Pandas division of a nullable cell by two: NaN propagates. -/
def valHalf : Val → Val
  | some x => some (x / 2)
  | none => none

/-- The summary_df row formulas of transform.py, per raw_df row. -/
def summarize (r : RawObservation) : DailySummary :=
  { city := r.city, date := r.date,
    avg_temperature := valHalf (valAdd r.temperature_max r.temperature_min),
    total_precipitation := r.precipitation,
    max_windspeed := r.windspeed_max }

/-- transform.py: build raw_df from the five series (KeyError when one is
absent, ValueError from the DataFrame constructor when lengths differ),
fill the precipitation column with 0, then derive summary_df from the
filled raw_df. -/
def transform (raw_data : RawData) :
    Except String (List RawObservation × List DailySummary) :=
  let daily := seriesOf raw_data
  match daily.time with
  | none => .error "KeyError: time"
  | some time =>
    match daily.temperature_2m_max with
    | none => .error "KeyError: temperature_2m_max"
    | some tmax =>
      match daily.temperature_2m_min with
      | none => .error "KeyError: temperature_2m_min"
      | some tmin =>
        match daily.precipitation_sum with
        | none => .error "KeyError: precipitation_sum"
        | some prec =>
          match daily.windspeed_10m_max with
          | none => .error "KeyError: windspeed_10m_max"
          | some wind =>
            if tmax.length = time.length ∧ tmin.length = time.length ∧
                prec.length = time.length ∧ wind.length = time.length then
              let raw_df := (buildRows time tmax tmin prec wind).map fillPrecip
              .ok (raw_df, raw_df.map summarize)
            else
              .error "ValueError: All arrays must be of the same length"

/-- A well-formed response whose daily mapping carries the five series. -/
def mkInput (time : List String) (tmax tmin prec wind : List Val) : RawData :=
  { daily := some
      { time := some time, temperature_2m_max := some tmax,
        temperature_2m_min := some tmin, precipitation_sum := some prec,
        windspeed_10m_max := some wind } }

theorem transform_mkInput (time : List String) (tmax tmin prec wind : List Val) :
    transform (mkInput time tmax tmin prec wind) =
      if tmax.length = time.length ∧ tmin.length = time.length ∧
          prec.length = time.length ∧ wind.length = time.length then
        .ok ((buildRows time tmax tmin prec wind).map fillPrecip,
             ((buildRows time tmax tmin prec wind).map fillPrecip).map summarize)
      else
        .error "ValueError: All arrays must be of the same length" := rfl

theorem buildRows_length (time : List String) (tmax tmin prec wind : List Val)
    (h1 : tmax.length = time.length) (h2 : tmin.length = time.length)
    (h3 : prec.length = time.length) (h4 : wind.length = time.length) :
    (buildRows time tmax tmin prec wind).length = time.length := by
  induction time generalizing tmax tmin prec wind with
  | nil =>
    cases tmax <;> cases tmin <;> cases prec <;> cases wind <;>
      simp_all [buildRows]
  | cons t ts ih =>
    cases tmax with
    | nil => simp at h1
    | cons a ta =>
      cases tmin with
      | nil => simp at h2
      | cons b tb =>
        cases prec with
        | nil => simp at h3
        | cons c tc =>
          cases wind with
          | nil => simp at h4
          | cons d td =>
            simp only [buildRows, List.length_cons]
            rw [ih ta tb tc td (by simpa using h1) (by simpa using h2)
              (by simpa using h3) (by simpa using h4)]

theorem buildRows_getElem (time : List String) (tmax tmin prec wind : List Val)
    (i : Nat) (r : RawObservation)
    (hr : (buildRows time tmax tmin prec wind)[i]? = some r) :
    r.city = CITY ∧ time[i]? = some r.date ∧
    tmax[i]? = some r.temperature_max ∧ tmin[i]? = some r.temperature_min ∧
    prec[i]? = some r.precipitation ∧ wind[i]? = some r.windspeed_max := by
  induction time generalizing tmax tmin prec wind i with
  | nil => simp [buildRows] at hr
  | cons t ts ih =>
    cases tmax with
    | nil => simp [buildRows] at hr
    | cons a ta =>
      cases tmin with
      | nil => simp [buildRows] at hr
      | cons b tb =>
        cases prec with
        | nil => simp [buildRows] at hr
        | cons c tc =>
          cases wind with
          | nil => simp [buildRows] at hr
          | cons d td =>
            cases i with
            | zero =>
              simp only [buildRows, List.getElem?_cons_zero,
                Option.some.injEq] at hr
              subst hr
              simp
            | succ n =>
              simp only [buildRows, List.getElem?_cons_succ] at hr ⊢
              exact ih ta tb tc td n hr

/-- The deduplication key of a raw_weather row: the (city, date) pair
covered by the unique constraint of the table. -/
def RawObservation.key (r : RawObservation) : String × String :=
  (r.city, r.date)

/-- Whether the stored table already holds a row with the given key. -/
def hasKey (state : List RawObservation) (k : String × String) : Bool :=
  state.any fun s => decide (s.key = k)

/-- The single bulk INSERT ... ON CONFLICT (city, date) DO
NOTHING, as PostgreSQL processes it: rows are attempted in order, a row
whose key is already present (in the prior table or earlier in the same
statement) is silently skipped, and the returned rowcount counts the
rows actually inserted.  Result: (new table state, rowcount). -/
def upsertRun : List RawObservation → List RawObservation →
    List RawObservation × Nat
  | state, [] => (state, 0)
  | state, r :: rs =>
      if hasKey state r.key then upsertRun state rs
      else
        let p := upsertRun (state ++ [r]) rs
        (p.1, p.2 + 1)

/-- upsert_raw of load.py: returns the number of rows inserted. -/
def upsert_raw (state batch : List RawObservation) : Nat :=
  (upsertRun state batch).2

/-- The raw_weather table state after upsert_raw has committed. -/
def upsertState (state batch : List RawObservation) : List RawObservation :=
  (upsertRun state batch).1

/-- load of load.py: run the upsert, then count the rows of raw_weather
and raise RuntimeError when the table is empty. -/
def load (state batch : List RawObservation) :
    Except String (List RawObservation) :=
  let s := upsertState state batch
  if s.length = 0 then
    .error "Data quality gate FAILED: raw_weather is empty after load"
  else
    .ok s

/-- The quality-gate error message of weather_dag.py, naming the table. -/
def qualityMsg (table : String) : String :=
  "Quality gate FAILED: " ++ table ++ " has 0 rows"

/-- The for loop of run_quality_check: walk the (table, row count)
pairs in order and raise ValueError at the first empty table. -/
def checkTables : List (String × Nat) → Except String Unit
  | [] => .ok ()
  | (table, count) :: rest =>
      if count = 0 then .error (qualityMsg table) else checkTables rest

/-- run_quality_check of weather_dag.py over the two checked tables. -/
def run_quality_check (rawCount summaryCount : Nat) : Except String Unit :=
  checkTables [("raw_weather", rawCount), ("daily_summary", summaryCount)]

theorem hasKey_iff (state : List RawObservation) (k : String × String) :
    hasKey state k = true ↔ ∃ s ∈ state, s.key = k := by
  simp [hasKey, List.any_eq_true]

theorem hasKey_append (s t : List RawObservation) (k : String × String) :
    hasKey (s ++ t) k = (hasKey s k || hasKey t k) := by
  simp [hasKey, List.any_append]

theorem hasKey_singleton (r : RawObservation) (k : String × String) :
    hasKey [r] k = decide (r.key = k) := by
  simp [hasKey]

theorem upsertRun_skip (state : List RawObservation) (r : RawObservation)
    (rs : List RawObservation) (h : hasKey state r.key = true) :
    upsertRun state (r :: rs) = upsertRun state rs := by
  simp [upsertRun, h]

theorem upsertRun_insert (state : List RawObservation) (r : RawObservation)
    (rs : List RawObservation) (h : hasKey state r.key = false) :
    upsertRun state (r :: rs) =
      ((upsertRun (state ++ [r]) rs).1, (upsertRun (state ++ [r]) rs).2 + 1) := by
  simp [upsertRun, h]

theorem prefix_upsertState (state batch : List RawObservation) :
    state <+: upsertState state batch := by
  induction batch generalizing state with
  | nil => exact List.prefix_refl state
  | cons r rs ih =>
    by_cases h : hasKey state r.key
    · rw [upsertState, upsertRun_skip state r rs h]
      exact ih state
    · rw [upsertState, upsertRun_insert state r rs (by simpa using h)]
      exact (List.prefix_append state [r]).trans (ih (state ++ [r]))

theorem hasKey_upsertState (state batch : List RawObservation)
    (k : String × String) :
    hasKey (upsertState state batch) k =
      (hasKey state k || batch.any fun r => decide (r.key = k)) := by
  induction batch generalizing state with
  | nil => simp [upsertState, upsertRun]
  | cons r rs ih =>
    by_cases h : hasKey state r.key
    · rw [upsertState, upsertRun_skip state r rs h, ← upsertState, ih]
      by_cases hk : r.key = k
      · subst hk
        simp [h]
      · simp [hk]
    · rw [upsertState, upsertRun_insert state r rs (by simpa using h),
        ← upsertState, ih, hasKey_append, hasKey_singleton]
      by_cases hk : r.key = k
      · subst hk
        simp
      · simp [hk]

theorem upsertRun_all_present (state batch : List RawObservation)
    (h : ∀ r ∈ batch, hasKey state r.key = true) :
    upsertRun state batch = (state, 0) := by
  induction batch with
  | nil => rfl
  | cons r rs ih =>
    rw [upsertRun_skip state r rs (h r (List.mem_cons_self r rs))]
    exact ih fun x hx => h x (List.mem_cons_of_mem r hx)

theorem upsert_raw_count (state batch : List RawObservation)
    (hnodup : (batch.map RawObservation.key).Nodup) :
    upsert_raw state batch =
      (batch.filter fun r => !hasKey state r.key).length := by
  induction batch generalizing state with
  | nil => rfl
  | cons r rs ih =>
    have hkeys : ∀ x ∈ rs, ¬(x.key = r.key) := by
      intro x hx hEq
      have : r.key ∈ rs.map RawObservation.key :=
        List.mem_map.mpr ⟨x, hx, hEq⟩
      simp only [List.map_cons, List.nodup_cons] at hnodup
      exact hnodup.1 this
    have hnodup' : (rs.map RawObservation.key).Nodup := by
      simp only [List.map_cons, List.nodup_cons] at hnodup
      exact hnodup.2
    by_cases h : hasKey state r.key
    · rw [upsert_raw, upsertRun_skip state r rs h, ← upsert_raw, ih state hnodup']
      simp [List.filter_cons, h]
    · rw [upsert_raw, upsertRun_insert state r rs (by simpa using h)]
      have hcongr : (rs.filter fun x => !hasKey (state ++ [r]) x.key) =
          (rs.filter fun x => !hasKey state x.key) := by
        apply List.filter_congr
        intro x hx
        rw [hasKey_append, hasKey_singleton]
        have : ¬(r.key = x.key) := fun hEq => hkeys x hx hEq.symm
        simp [this]
      have := ih (state ++ [r]) hnodup'
      rw [upsert_raw] at this
      simp only [this, hcongr, List.filter_cons]
      simp [h, Nat.add_comm]

/-- First example row of the end-to-end scenario in the specification. -/
def sampleRow1 : RawObservation :=
  { city := "Singapore", date := "2024-01-01", temperature_max := some 32,
    temperature_min := some 25, precipitation := some 0,
    windspeed_max := some 15 }

/-- Second example row of the end-to-end scenario in the specification. -/
def sampleRow2 : RawObservation :=
  { city := "Singapore", date := "2024-01-02", temperature_max := some 33,
    temperature_min := some 26, precipitation := some 5,
    windspeed_max := some 20 }

/-- C1: Idempotent load.  For a batch whose (city, date) keys are pairwise
distinct, (i) when none of the keys is already stored the first upsert
inserts all rows; (ii) a second upsert of the same batch against the
resulting state inserts zero rows; (iii) it also leaves the stored table
(hence its row count) unchanged; (iv) in general upsert_raw returns
exactly the number of rows whose key did not already exist. -/
theorem upsert_idempotent (state batch : List RawObservation)
    (hnodup : (batch.map RawObservation.key).Nodup) :
    ((∀ r ∈ batch, hasKey state r.key = false) →
        upsert_raw state batch = batch.length) ∧
    upsert_raw (upsertState state batch) batch = 0 ∧
    upsertState (upsertState state batch) batch = upsertState state batch ∧
    upsert_raw state batch =
      (batch.filter fun r => !hasKey state r.key).length := by
  have hcount := upsert_raw_count state batch hnodup
  have hsecond : upsertRun (upsertState state batch) batch =
      (upsertState state batch, 0) := by
    apply upsertRun_all_present
    intro r hr
    rw [hasKey_upsertState]
    have : batch.any (fun x => decide (x.key = r.key)) = true :=
      List.any_eq_true.mpr ⟨r, hr, by simp⟩
    simp [this]
  refine ⟨?_, ?_, ?_, hcount⟩
  · intro hdisj
    rw [hcount]
    have : (batch.filter fun r => !hasKey state r.key) = batch :=
      List.filter_eq_self.mpr fun r hr => by simp [hdisj r hr]
    rw [this]
  · rw [upsert_raw, hsecond]
  · rw [upsertState, hsecond]

/-- Witness for C1 at the concrete scenario of the specification: loading the
two-row batch into empty storage inserts 2 rows, loading it again inserts
0, and the stored row count stays at 2. -/
theorem upsert_idempotent_witness :
    upsert_raw [] [sampleRow1, sampleRow2] = 2 ∧
    upsert_raw (upsertState [] [sampleRow1, sampleRow2])
      [sampleRow1, sampleRow2] = 0 ∧
    (upsertState (upsertState [] [sampleRow1, sampleRow2])
        [sampleRow1, sampleRow2]).length =
      (upsertState [] [sampleRow1, sampleRow2]).length := by
  have h := upsert_idempotent [] [sampleRow1, sampleRow2] (by decide)
  exact ⟨h.1 (by decide), h.2.1, by rw [h.2.2.1]⟩

/-- Uniqueness of the (city, date) key across the stored table. -/
def uniqueKeys (state : List RawObservation) : Prop :=
  (state.map RawObservation.key).Nodup

/-- A sequence of upsert_raw operations, each committing its batch. -/
def runBatches (state : List RawObservation)
    (batches : List (List RawObservation)) : List RawObservation :=
  batches.foldl upsertState state

theorem uniqueKeys_upsertState (state batch : List RawObservation)
    (h : uniqueKeys state) : uniqueKeys (upsertState state batch) := by
  induction batch generalizing state with
  | nil => exact h
  | cons r rs ih =>
    by_cases hk : hasKey state r.key
    · rw [upsertState, upsertRun_skip state r rs hk]
      exact ih state h
    · rw [upsertState, upsertRun_insert state r rs (by simpa using hk)]
      apply ih
      rw [uniqueKeys, List.map_append]
      rw [List.nodup_append]
      refine ⟨h, List.nodup_singleton _, ?_⟩
      intro k hk1 hk2
      simp only [List.map_cons, List.map_nil, List.mem_singleton] at hk2
      subst hk2
      rcases List.mem_map.mp hk1 with ⟨s, hs, hsk⟩
      have : hasKey state r.key = true := (hasKey_iff state r.key).mpr ⟨s, hs, hsk⟩
      exact hk this

/-- C6: after any sequence of upsert_raw operations starting from a state
with unique (city, date) keys, the keys stay unique across the stored
table, and the previously stored rows survive unchanged, in place, as a
prefix of the new table (conflicting inserts are dropped, never merged
or updated). -/
theorem upsert_invariant (state : List RawObservation)
    (batches : List (List RawObservation)) (h : uniqueKeys state) :
    uniqueKeys (runBatches state batches) ∧
    state <+: runBatches state batches := by
  induction batches generalizing state with
  | nil => exact ⟨h, List.prefix_refl state⟩
  | cons b bs ih =>
    have hstep := ih (upsertState state b) (uniqueKeys_upsertState state b h)
    exact ⟨hstep.1, (prefix_upsertState state b).trans hstep.2⟩

/-- Witness for C6: a stored table holding the first sample row, hit by a
batch that conflicts on that row and adds a second one. -/
theorem upsert_invariant_witness :
    uniqueKeys (runBatches [sampleRow1] [[sampleRow1, sampleRow2]]) ∧
    [sampleRow1] <+: runBatches [sampleRow1] [[sampleRow1, sampleRow2]] :=
  upsert_invariant [sampleRow1] [[sampleRow1, sampleRow2]]
    (by simp [uniqueKeys])

/-- C7: the zero-row gates.  load raises its RuntimeError exactly when the
row count of the raw table after the upsert is zero, and returns the table
otherwise; run_quality_check succeeds silently exactly when both checked
tables are non-empty, raises naming raw_weather when it is empty, and
raises naming daily_summary when raw_weather is non-empty and
daily_summary is empty. -/
theorem zero_row_gates (state batch : List RawObservation)
    (rawCount summaryCount : Nat) :
    ((upsertState state batch).length = 0 →
        load state batch =
          .error "Data quality gate FAILED: raw_weather is empty after load") ∧
    ((upsertState state batch).length ≠ 0 →
        load state batch = .ok (upsertState state batch)) ∧
    (run_quality_check rawCount summaryCount = .ok () ↔
        rawCount ≠ 0 ∧ summaryCount ≠ 0) ∧
    (rawCount = 0 →
        run_quality_check rawCount summaryCount =
          .error (qualityMsg "raw_weather")) ∧
    (rawCount ≠ 0 → summaryCount = 0 →
        run_quality_check rawCount summaryCount =
          .error (qualityMsg "daily_summary")) := by
  refine ⟨?_, ?_, ?_, ?_, ?_⟩
  · intro h
    simp [load, h]
  · intro h
    simp [load, h]
  · constructor
    · intro h
      by_cases h1 : rawCount = 0
      · simp [run_quality_check, checkTables, h1] at h
      · by_cases h2 : summaryCount = 0
        · simp [run_quality_check, checkTables, h1, h2] at h
        · exact ⟨h1, h2⟩
    · rintro ⟨h1, h2⟩
      simp [run_quality_check, checkTables, h1, h2]
  · intro h1
    simp [run_quality_check, checkTables, h1]
  · intro h1 h2
    simp [run_quality_check, checkTables, h1, h2]

/-- Witness for C7: loading an empty batch into empty storage trips the
load gate; a zero-row raw_weather is named, as is a zero-row
daily_summary; two non-empty tables pass silently. -/
theorem zero_row_gates_witness :
    load [] [] =
      .error "Data quality gate FAILED: raw_weather is empty after load" ∧
    run_quality_check 0 5 = .error (qualityMsg "raw_weather") ∧
    run_quality_check 3 0 = .error (qualityMsg "daily_summary") ∧
    run_quality_check 3 5 = .ok () :=
  ⟨(zero_row_gates [] [] 0 5).1 rfl,
   (zero_row_gates [] [] 0 5).2.2.2.1 rfl,
   (zero_row_gates [] [] 3 0).2.2.2.2 (by decide) rfl,
   (zero_row_gates [] [] 3 5).2.2.1.mpr ⟨by decide, by decide⟩⟩

theorem transform_ok_inv (time : List String) (tmax tmin prec wind : List Val)
    (raw : List RawObservation) (sums : List DailySummary)
    (hok : transform (mkInput time tmax tmin prec wind) = .ok (raw, sums)) :
    tmax.length = time.length ∧ tmin.length = time.length ∧
    prec.length = time.length ∧ wind.length = time.length ∧
    raw = (buildRows time tmax tmin prec wind).map fillPrecip ∧
    sums = raw.map summarize := by
  rw [transform_mkInput] at hok
  by_cases h : tmax.length = time.length ∧ tmin.length = time.length ∧
      prec.length = time.length ∧ wind.length = time.length
  · rw [if_pos h] at hok
    simp only [Except.ok.injEq, Prod.mk.injEq] at hok
    refine ⟨h.1, h.2.1, h.2.2.1, h.2.2.2, hok.1.symm, ?_⟩
    rw [← hok.1]
    exact hok.2.symm
  · rw [if_neg h] at hok
    simp at hok

theorem fillPrecip_fields (r : RawObservation) :
    (fillPrecip r).city = r.city ∧ (fillPrecip r).date = r.date ∧
    (fillPrecip r).temperature_max = r.temperature_max ∧
    (fillPrecip r).temperature_min = r.temperature_min ∧
    (fillPrecip r).windspeed_max = r.windspeed_max ∧
    (fillPrecip r).precipitation = some (r.precipitation.getD 0) := by
  simp [fillPrecip]

/-- C2: asymmetric null handling.  Whenever transform succeeds, every
precipitation of every output row is the zero-filled input value (so a null
input precipitation becomes exactly 0 and the column is never null),
while temperature_max, temperature_min and windspeed_max are exactly the
input cells, nulls included. -/
theorem transform_null_handling (time : List String)
    (tmax tmin prec wind : List Val) (raw : List RawObservation)
    (sums : List DailySummary)
    (hok : transform (mkInput time tmax tmin prec wind) = .ok (raw, sums)) :
    ∀ (i : Nat) (r : RawObservation), raw[i]? = some r →
      (∃ v, prec[i]? = some v ∧ r.precipitation = some (v.getD 0)) ∧
      r.precipitation ≠ none ∧
      tmax[i]? = some r.temperature_max ∧
      tmin[i]? = some r.temperature_min ∧
      wind[i]? = some r.windspeed_max := by
  obtain ⟨h1, h2, h3, h4, hraw, _⟩ :=
    transform_ok_inv time tmax tmin prec wind raw sums hok
  subst hraw
  intro i r hr
  rw [List.getElem?_map] at hr
  cases hb : (buildRows time tmax tmin prec wind)[i]? with
  | none => rw [hb] at hr; simp at hr
  | some r0 =>
    rw [hb] at hr
    simp only [Option.map_some', Option.some.injEq] at hr
    obtain ⟨_, _, hmax, hmin, hprec, hwind⟩ :=
      buildRows_getElem time tmax tmin prec wind i r0 hb
    obtain ⟨_, _, fmax, fmin, fwind, fprec⟩ := fillPrecip_fields r0
    subst hr
    refine ⟨⟨r0.precipitation, hprec, fprec⟩, ?_, ?_, ?_, ?_⟩
    · rw [fprec]; simp
    · rw [fmax]; exact hmax
    · rw [fmin]; exact hmin
    · rw [fwind]; exact hwind

/-- Row produced by transform from a day whose temperature_2m_min and
precipitation_sum cells are both null. -/
def nullRow : RawObservation :=
  { city := "Singapore", date := "2024-01-01", temperature_max := some 32,
    temperature_min := none, precipitation := some 0,
    windspeed_max := some 15 }

/-- Witness for C2 at a one-day input with null temperature_2m_min and
null precipitation_sum: precipitation comes out as exactly 0 and the
null temperature survives untouched. -/
theorem transform_null_handling_witness :
    (∃ v, ([(none : Val)])[0]? = some v ∧
        nullRow.precipitation = some (v.getD 0)) ∧
    nullRow.precipitation ≠ none ∧
    ([(some 32 : Val)])[0]? = some nullRow.temperature_max ∧
    ([(none : Val)])[0]? = some nullRow.temperature_min ∧
    ([(some 15 : Val)])[0]? = some nullRow.windspeed_max :=
  transform_null_handling ["2024-01-01"] [some 32] [none] [none] [some 15]
    [nullRow] [summarize nullRow] rfl 0 nullRow rfl

/-- C3: for a well-formed response whose five series share length N,
transform succeeds with exactly N RawObservation rows and N DailySummary
rows; row i of the raw table is built from index i of every input series
with city fixed to the configured value and its date the time string at
index i, row i of the summary table is derived from raw row i, and N = 0
yields two empty tables. -/
theorem transform_row_counts (time : List String)
    (tmax tmin prec wind : List Val)
    (h1 : tmax.length = time.length) (h2 : tmin.length = time.length)
    (h3 : prec.length = time.length) (h4 : wind.length = time.length) :
    ∃ raw sums,
      transform (mkInput time tmax tmin prec wind) = .ok (raw, sums) ∧
      raw.length = time.length ∧ sums.length = time.length ∧
      (∀ (i : Nat) (r : RawObservation), raw[i]? = some r → r.city = CITY ∧ time[i]? = some r.date ∧
        tmax[i]? = some r.temperature_max ∧
        tmin[i]? = some r.temperature_min ∧
        (∃ v, prec[i]? = some v ∧ r.precipitation = some (v.getD 0)) ∧
        wind[i]? = some r.windspeed_max) ∧
      (∀ i : Nat, sums[i]? = (raw[i]?).map summarize) ∧
      (time.length = 0 → raw = [] ∧ sums = []) := by
  refine ⟨(buildRows time tmax tmin prec wind).map fillPrecip,
    ((buildRows time tmax tmin prec wind).map fillPrecip).map summarize,
    ?_, ?_, ?_, ?_, ?_, ?_⟩
  · rw [transform_mkInput, if_pos ⟨h1, h2, h3, h4⟩]
  · rw [List.length_map]
    exact buildRows_length time tmax tmin prec wind h1 h2 h3 h4
  · rw [List.length_map, List.length_map]
    exact buildRows_length time tmax tmin prec wind h1 h2 h3 h4
  · intro i r hr
    rw [List.getElem?_map] at hr
    cases hb : (buildRows time tmax tmin prec wind)[i]? with
    | none => rw [hb] at hr; simp at hr
    | some r0 =>
      rw [hb] at hr
      simp only [Option.map_some', Option.some.injEq] at hr
      obtain ⟨hcity, hdate, hmax, hmin, hprec, hwind⟩ :=
        buildRows_getElem time tmax tmin prec wind i r0 hb
      obtain ⟨fcity, fdate, fmax, fmin, fwind, fprec⟩ := fillPrecip_fields r0
      subst hr
      rw [fcity, fdate, fmax, fmin, fwind]
      exact ⟨hcity, hdate, hmax, hmin, ⟨r0.precipitation, hprec, fprec⟩, hwind⟩
  · intro i
    rw [List.getElem?_map]
  · intro h0
    have ht : time = [] := List.length_eq_zero.mp h0
    subst ht
    cases tmax <;> cases tmin <;> cases prec <;> cases wind <;>
      simp [buildRows]

/-- Witness for C3 at the two-day end-to-end scenario of the specification. -/
theorem transform_row_counts_witness :
    ∃ raw sums,
      transform (mkInput ["2024-01-01", "2024-01-02"]
        [some 32, some 33] [some 25, some 26] [some 0, some 5]
        [some 15, some 20]) = .ok (raw, sums) ∧
      raw.length = (["2024-01-01", "2024-01-02"] : List String).length ∧
      sums.length = (["2024-01-01", "2024-01-02"] : List String).length ∧
      (∀ (i : Nat) (r : RawObservation), raw[i]? = some r → r.city = CITY ∧
        (["2024-01-01", "2024-01-02"] : List String)[i]? = some r.date ∧
        ([some 32, some 33] : List Val)[i]? = some r.temperature_max ∧
        ([some 25, some 26] : List Val)[i]? = some r.temperature_min ∧
        (∃ v, ([some 0, some 5] : List Val)[i]? = some v ∧
          r.precipitation = some (v.getD 0)) ∧
        ([some 15, some 20] : List Val)[i]? = some r.windspeed_max) ∧
      (∀ i : Nat, sums[i]? = (raw[i]?).map summarize) ∧
      ((["2024-01-01", "2024-01-02"] : List String).length = 0 →
        raw = [] ∧ sums = []) :=
  transform_row_counts ["2024-01-01", "2024-01-02"]
    [some 32, some 33] [some 25, some 26] [some 0, some 5]
    [some 15, some 20] rfl rfl rfl rfl

/-- C4: DailySummary is a pure per-row function of the raw row.  Whenever
transform succeeds, summary row i carries the city and date of raw row i,
avg_temperature is (temperature_max + temperature_min) / 2 in exact
nullable arithmetic, total_precipitation equals the (zero-filled)
precipitation, and max_windspeed equals windspeed_max exactly. -/
theorem summary_pure_function (time : List String)
    (tmax tmin prec wind : List Val) (raw : List RawObservation)
    (sums : List DailySummary)
    (hok : transform (mkInput time tmax tmin prec wind) = .ok (raw, sums)) :
    ∀ (i : Nat) (r : RawObservation) (s : DailySummary),
      raw[i]? = some r → sums[i]? = some s →
      s.city = r.city ∧ s.date = r.date ∧
      s.avg_temperature =
        valHalf (valAdd r.temperature_max r.temperature_min) ∧
      s.total_precipitation = r.precipitation ∧
      s.max_windspeed = r.windspeed_max := by
  obtain ⟨_, _, _, _, _, hsum⟩ :=
    transform_ok_inv time tmax tmin prec wind raw sums hok
  subst hsum
  intro i r s hr hs
  rw [List.getElem?_map, hr] at hs
  simp only [Option.map_some', Option.some.injEq] at hs
  subst hs
  simp [summarize]

/-- Witness for C4 at the first scenario row of the specification: the summary
row equals the stated formulas, and the average is 28.5 degrees. -/
theorem summary_pure_function_witness :
    ((summarize sampleRow1).city = sampleRow1.city ∧
     (summarize sampleRow1).date = sampleRow1.date ∧
     (summarize sampleRow1).avg_temperature =
       valHalf (valAdd sampleRow1.temperature_max sampleRow1.temperature_min) ∧
     (summarize sampleRow1).total_precipitation = sampleRow1.precipitation ∧
     (summarize sampleRow1).max_windspeed = sampleRow1.windspeed_max) ∧
    (summarize sampleRow1).avg_temperature = some (57 / 2) :=
  ⟨summary_pure_function ["2024-01-01", "2024-01-02"]
      [some 32, some 33] [some 25, some 26] [some 0, some 5]
      [some 15, some 20] [sampleRow1, sampleRow2]
      [summarize sampleRow1, summarize sampleRow2] rfl
      0 sampleRow1 (summarize sampleRow1) rfl rfl,
   by norm_num [summarize, sampleRow1, valAdd, valHalf]⟩

/-- The malformed-response condition: the daily mapping (or its fallback,
the empty dictionary) lacks one of the five named series. -/
def missingSeries (raw_data : RawData) : Prop :=
  (seriesOf raw_data).time = none ∨
  (seriesOf raw_data).temperature_2m_max = none ∨
  (seriesOf raw_data).temperature_2m_min = none ∨
  (seriesOf raw_data).precipitation_sum = none ∨
  (seriesOf raw_data).windspeed_10m_max = none

/-- C5: malformed versus empty.  An absent daily mapping leaves every
series missing; any missing series makes transform raise; a response
carrying all five series with aligned lengths never raises; and the
all-empty response returns two empty tables rather than an error. -/
theorem transform_malformed_vs_empty :
    (∀ raw_data : RawData, raw_data.daily = none → missingSeries raw_data) ∧
    (∀ raw_data : RawData, missingSeries raw_data →
      ∃ e, transform raw_data = .error e) ∧
    (∀ (time : List String) (tmax tmin prec wind : List Val),
      tmax.length = time.length → tmin.length = time.length →
      prec.length = time.length → wind.length = time.length →
      ∃ raw sums,
        transform (mkInput time tmax tmin prec wind) = .ok (raw, sums)) ∧
    transform (mkInput [] [] [] [] []) = .ok ([], []) := by
  refine ⟨?_, ?_, ?_, rfl⟩
  · intro raw_data h
    left
    simp [seriesOf, h, emptyDaily]
  · intro raw_data h
    cases htime : (seriesOf raw_data).time with
    | none => exact ⟨_, by rw [transform, htime]⟩
    | some time =>
      cases hmax : (seriesOf raw_data).temperature_2m_max with
      | none => exact ⟨_, by rw [transform, htime, hmax]⟩
      | some tmax =>
        cases hmin : (seriesOf raw_data).temperature_2m_min with
        | none => exact ⟨_, by rw [transform, htime, hmax, hmin]⟩
        | some tmin =>
          cases hprec : (seriesOf raw_data).precipitation_sum with
          | none => exact ⟨_, by rw [transform, htime, hmax, hmin, hprec]⟩
          | some prec =>
            cases hwind : (seriesOf raw_data).windspeed_10m_max with
            | none =>
              exact ⟨_, by rw [transform, htime, hmax, hmin, hprec, hwind]⟩
            | some wind =>
              rcases h with h | h | h | h | h <;> simp_all
  · intro time tmax tmin prec wind h1 h2 h3 h4
    exact ⟨_, _, by rw [transform_mkInput, if_pos ⟨h1, h2, h3, h4⟩]⟩

/-- Witness for C5: a response with no daily mapping is malformed and
raises, while the all-empty well-formed response yields empty tables. -/
theorem transform_malformed_vs_empty_witness :
    missingSeries { daily := none } ∧
    (∃ e, transform { daily := none } = .error e) ∧
    transform (mkInput [] [] [] [] []) = .ok ([], []) :=
  ⟨transform_malformed_vs_empty.1 { daily := none } rfl,
   transform_malformed_vs_empty.2.1 { daily := none }
     (transform_malformed_vs_empty.1 { daily := none } rfl),
   transform_malformed_vs_empty.2.2.2⟩

/-- C10: positional alignment is enforced.  If any two of the five series
of a response carrying all of them have different lengths, transform
raises the error of the DataFrame constructor instead of building rows from
mismatched indices. -/
theorem transform_length_mismatch (time : List String)
    (tmax tmin prec wind : List Val)
    (h : ∃ a ∈ [time.length, tmax.length, tmin.length, prec.length,
          wind.length],
         ∃ b ∈ [time.length, tmax.length, tmin.length, prec.length,
          wind.length], a ≠ b) :
    transform (mkInput time tmax tmin prec wind) =
      .error "ValueError: All arrays must be of the same length" := by
  rw [transform_mkInput]
  apply if_neg
  rintro ⟨c1, c2, c3, c4⟩
  obtain ⟨a, ha, b, hb, hab⟩ := h
  simp only [c1, c2, c3, c4, List.mem_cons, List.not_mem_nil, or_false,
    or_self] at ha hb
  exact hab (ha.trans hb.symm)

/-- Witness for C10: one time entry against four empty numeric series. -/
theorem transform_length_mismatch_witness :
    transform (mkInput ["2024-01-01"] [] [] [] []) =
      .error "ValueError: All arrays must be of the same length" :=
  transform_length_mismatch ["2024-01-01"] [] [] [] []
    ⟨1, by decide, 0, by decide, by decide⟩

/-- status_forcelist of the Retry configured in extract.py. -/
def STATUS_FORCELIST : List Nat := [429, 500, 502, 503, 504]

/-- Whether the transport retries a response with this status. -/
def retryable (status : Nat) : Bool := STATUS_FORCELIST.contains status

/-- backoff_factor of the Retry configured in extract.py. -/
def BACKOFF_FACTOR : ℚ := 1

/-- The urllib3 backoff formula: the sleep before retry number n (n ≥ 1)
is backoff_factor * 2 ^ (n - 1), growing exponentially. -/
def backoffTime (n : Nat) : ℚ := BACKOFF_FACTOR * 2 ^ (n - 1)

/-- One session.get under Retry(total := 3): the argument lists the
statuses the server answers on successive attempts.  A status on the
forcelist consumes a retry; when none is left the transport raises; a
status off the forcelist is returned as the response. -/
def sessionGet : Nat → List Nat → Except String Nat
  | _, [] => .error "ConnectionError: no response"
  | retriesLeft, s :: rest =>
      if retryable s then
        match retriesLeft with
        | 0 => .error "RetryError: too many 429/5xx responses"
        | n + 1 => sessionGet n rest
      else .ok s

/-- response.raise_for_status(): any 4xx/5xx response raises HTTPError. -/
def raiseForStatus (status : Nat) : Except String Nat :=
  if 400 ≤ status then .error ("HTTPError: " ++ toString status)
  else .ok status

/-- extract of extract.py, as a function of the statuses the server
answers: the bounded transport retry followed by raise_for_status; a
success stands for returning the decoded JSON body. -/
def extractModel (statuses : List Nat) : Except String Nat :=
  match sessionGet 3 statuses with
  | .error e => .error e
  | .ok s => raiseForStatus s

/-- The retry predicate asserted by the specification: HTTP 429 or any
5xx status. -/
def claimRetryPred (status : Nat) : Bool :=
  status == 429 || (500 ≤ status && status ≤ 599)

/-- C8 counterexample: 501 is a 5xx status the claimed policy retries,
but the configured forcelist omits it, so a 501 response surfaces
immediately as a fatal HTTPError with no retry, while a 500 in the same
position is retried and the request succeeds. -/
theorem extract_retry_counterexample :
    claimRetryPred 501 = true ∧ retryable 501 = false ∧
    extractModel [501, 200] = .error "HTTPError: 501" ∧
    extractModel [500, 200] = .ok 200 := by
  refine ⟨rfl, rfl, ?_, rfl⟩
  rw [extractModel]
  rfl

/-- C8 (amended): the transport retries a request exactly when the
response status is in the configured forcelist 429, 500, 502, 503, 504,
up to 3 retries after the initial attempt, sleeping an exponentially
growing backoff before each retry; any response off the forcelist with
an HTTP error status, and exhaustion of the retries, surfaces as a fatal
error to the caller of extract. -/
theorem extract_retry_policy (s0 s1 s2 s3 : Nat) (rest : List Nat) :
    extractModel (s0 :: s1 :: s2 :: s3 :: rest) =
      (if retryable s0 then
        if retryable s1 then
          if retryable s2 then
            if retryable s3 then
              .error "RetryError: too many 429/5xx responses"
            else raiseForStatus s3
          else raiseForStatus s2
        else raiseForStatus s1
      else raiseForStatus s0) ∧
    (∀ s : Nat, retryable s = true ↔
      (s = 429 ∨ s = 500 ∨ s = 502 ∨ s = 503 ∨ s = 504)) ∧
    (∀ s : Nat, retryable s = false → 400 ≤ s →
      raiseForStatus s = .error ("HTTPError: " ++ toString s)) ∧
    (∀ n : Nat, 1 ≤ n → backoffTime (n + 1) = 2 * backoffTime n) := by
  refine ⟨?_, ?_, ?_, ?_⟩
  · by_cases h0 : retryable s0 <;>
      by_cases h1 : retryable s1 <;>
        by_cases h2 : retryable s2 <;>
          by_cases h3 : retryable s3 <;>
            simp [extractModel, sessionGet, h0, h1, h2, h3]
  · intro s
    simp [retryable, STATUS_FORCELIST]
  · intro s hs h4
    simp [raiseForStatus, h4]
  · intro n hn
    rw [backoffTime, backoffTime, BACKOFF_FACTOR]
    have : n + 1 - 1 = (n - 1) + 1 := by omega
    rw [this]
    ring

/-- Witness for C8: a 500, a 503 and a 429 are each retried and the
200 of the fourth attempt is returned; a 501 response off the forcelist
raises; the backoff doubles from the first retry to the second. -/
theorem extract_retry_policy_witness :
    extractModel [500, 503, 429, 200, 999] = raiseForStatus 200 ∧
    retryable 501 = false ∧
    raiseForStatus 501 = .error ("HTTPError: " ++ toString 501) ∧
    backoffTime 2 = 2 * backoffTime 1 := by
  have h := extract_retry_policy 500 503 429 200 [999]
  refine ⟨?_, rfl, h.2.2.1 501 rfl (by decide), h.2.2.2 1 (by decide)⟩
  rw [h.1]
  rfl

/-- The pair of tables the dashboard reads from the database. -/
structure DashData where
  raw : List RawObservation
  summary : List DailySummary
deriving Repr, DecidableEq

/-- get_data of dashboard/app.py: the argument is the outcome of the two
SELECTs; on any exception the function returns two empty DataFrames
together with the error text, never raising. -/
def get_data : Except String DashData → DashData × Option String
  | .ok d => (d, none)
  | .error e => ({ raw := [], summary := [] }, some e)

/-- What the raw-weather tab renders: the empty-state placeholder or the
charts and table built from the rows. -/
inductive RawTab where
  | placeholder (msg : String)
  | charts (rows : List RawObservation)
deriving Repr, DecidableEq

/-- What the daily-summary tab renders. -/
inductive SummaryTab where
  | placeholder (msg : String)
  | charts (rows : List DailySummary)
deriving Repr, DecidableEq

/-- build_tab_raw of dashboard/app.py. -/
def build_tab_raw (raw_df : List RawObservation) : RawTab :=
  if raw_df.isEmpty then
    .placeholder "No data yet — run the Airflow DAG to populate raw_weather."
  else .charts raw_df

/-- build_tab_summary of dashboard/app.py. -/
def build_tab_summary (summary_df : List DailySummary) : SummaryTab :=
  if summary_df.isEmpty then
    .placeholder "No data yet — run dbt after the DAG has loaded raw_weather."
  else .charts summary_df

/-- The four callback outputs of refresh_data: both tab contents, the
banner text and whether the banner style makes it visible. -/
structure Rendered where
  rawContent : RawTab
  summaryContent : SummaryTab
  bannerText : String
  bannerVisible : Bool
deriving Repr, DecidableEq

/-- refresh_data of dashboard/app.py: every interval tick it calls
get_data and rebuilds both tabs from whatever DataFrames came back,
showing the banner exactly when the read failed.  It receives no
previous state: the outputs replace the page fragments wholesale. -/
def refresh_data (db : Except String DashData) : Rendered :=
  let p := get_data db
  match p.2 with
  | some e =>
      { rawContent := build_tab_raw p.1.raw,
        summaryContent := build_tab_summary p.1.summary,
        bannerText :=
          "Database unreachable — charts show last loaded data. Error: " ++ e,
        bannerVisible := true }
  | none =>
      { rawContent := build_tab_raw p.1.raw,
        summaryContent := build_tab_summary p.1.summary,
        bannerText := "",
        bannerVisible := false }

/-- The database contents after a successful pipeline run over one day. -/
def dashSample : DashData :=
  { raw := [sampleRow1], summary := [summarize sampleRow1] }

/-- C9, evaluated at the failing input: after a successful refresh that
rendered one row, a refresh whose database read fails does show the
visible error banner without crashing and a later successful refresh
hides it again, but the failed refresh replaces both tabs with the
empty-state placeholders instead of retaining the last successfully
fetched data — contradicting the claim and the text of the banner itself. -/
theorem dashboard_refresh_on_failure :
    (refresh_data (.ok dashSample)).rawContent =
      RawTab.charts [sampleRow1] ∧
    (refresh_data (.ok dashSample)).bannerVisible = false ∧
    (refresh_data (.error "connection refused")).rawContent =
      RawTab.placeholder
        "No data yet — run the Airflow DAG to populate raw_weather." ∧
    (refresh_data (.error "connection refused")).summaryContent =
      SummaryTab.placeholder
        "No data yet — run dbt after the DAG has loaded raw_weather." ∧
    (refresh_data (.error "connection refused")).rawContent ≠
      RawTab.charts [sampleRow1] ∧
    (refresh_data (.error "connection refused")).bannerVisible = true := by
  refine ⟨rfl, rfl, rfl, rfl, ?_, rfl⟩
  intro h
  simp [refresh_data, get_data, build_tab_raw] at h
